import Mathlib

/-!
Shallow embedding of `src/slopepkgalg.py` (QGIS processing script
`slopealg`: slope computation, classification and vectorization pipeline).

The script orchestrates five external geoprocessing operations
(`saga:mosaicrasterlayers`, `saga:resampling`, `gdal:slope`,
`saga:rastercalculator`, `gdal:polygonize`) through `processing.run`,
polling `feedback.isCanceled()` after each stage and emitting a progress
message with `feedback.setProgressText` after each non-canceled stage.

Modelling decisions:
* Artifact paths and opaque layer references are `String`s.
* Each external operation is a black box supplied by an `Env` record: it
  receives the exact parameter record the script builds (same keys, same
  constants) and either fails (`Except.error`, modelling a raised Python
  exception propagating out of `processing.run`) or returns its result
  dictionary (modelled as a structure with the fields the script reads).
* A successful external operation writes one artifact to the destination
  path the script passed it; an invocation, a write and a progress message
  are recorded as events in an execution trace.
* The cancellation flag is observed only at the script's five
  `feedback.isCanceled()` call sites; `Env.isCanceled k` is its value at
  the k-th poll (k = 0..4 in program order).
* `NUMBER` inputs (the two grain sizes) are embedded as `ℚ`; the script
  compares them with `!=`, embedded as decidable disequality on `ℚ`.
* The Python `return {...}` dictionary is an association list; `return {}`
  is the empty list.
-/

/-- Artifact path / opaque layer reference. -/
abbrev RPath := String

/-- Opaque error value raised by an external operation. -/
abbrev Err := String

/-- The five pipeline stages of `slopealg`. -/
inductive Stage where
  | mosaic
  | resample
  | slope
  | classify
  | vectorize
  deriving DecidableEq, Repr

/-- Observable events of a pipeline run: an external operation is invoked on
some input artifact(s) with a destination path, a successful operation writes
its destination, and `setProgressText` emits a message. -/
inductive Event where
  | invoke (s : Stage) (input : List RPath) (dest : RPath)
  | write (s : Stage) (path : RPath)
  | progress (msg : String)
  deriving DecidableEq, Repr

/-- Value returned by the Python function: its result dictionary, or the
exception propagating out of a failed `processing.run` call. -/
inductive Outcome where
  | ok (result : List (String × RPath))
  | error (e : Err)
  deriving DecidableEq, Repr

/-- Result dictionary of `saga:mosaicrasterlayers` (the script reads key
`TARGET_OUT_GRID`). -/
structure MosaicResult where
  TARGET_OUT_GRID : RPath
  deriving DecidableEq, Repr

/-- Result dictionary of `saga:resampling` (the script reads key `OUTPUT`). -/
structure ResamplingResult where
  OUTPUT : RPath
  deriving DecidableEq, Repr

/-- Result dictionary of `gdal:slope` (the script reads key `OUTPUT`). -/
structure SlopeResult where
  OUTPUT : RPath
  deriving DecidableEq, Repr

/-- Result dictionary of `saga:rastercalculator` (the script reads key
`RESULT`). -/
structure RasterCalcResult where
  RESULT : RPath
  deriving DecidableEq, Repr

/-- Result dictionary of `gdal:polygonize` (the script reads key `OUTPUT`). -/
structure PolygonizeResult where
  OUTPUT : RPath
  deriving DecidableEq, Repr

/-- Parameter dictionary the script passes to `saga:mosaicrasterlayers`
(source lines 41-52).  `TARGET_USER_EXTENT` stands for the optional-extent
key `TARGET_USER_XMIN TARGET_USER_XMAX TARGET_USER_YMIN TARGET_USER_YMAX`,
always `None`. -/
structure MosaicParams where
  GRIDS : List RPath
  NAME : String
  TYPE : Nat
  RESAMPLING : Nat
  OVERLAP : Nat
  BLEND_DIST : Nat
  MATCH : Nat
  TARGET_USER_EXTENT : Option String
  TARGET_USER_SIZE : ℚ
  TARGET_USER_FITS : Nat
  TARGET_OUT_GRID : RPath
  deriving Repr

/-- Parameter dictionary the script passes to `saga:resampling`
(source lines 66-75). -/
structure ResamplingParams where
  INPUT : RPath
  KEEP_TYPE : Bool
  SCALE_UP : Nat
  SCALE_DOWN : Nat
  TARGET_USER_EXTENT : Option String
  TARGET_USER_SIZE : ℚ
  TARGET_USER_FITS : Nat
  TARGET_TEMPLATE : Option String
  OUTPUT : RPath
  deriving Repr

/-- Parameter dictionary the script passes to `gdal:slope`
(source lines 93-102). -/
structure SlopeParams where
  INPUT : RPath
  BAND : Nat
  SCALE : Nat
  AS_PERCENT : Bool
  COMPUTE_EDGES : Bool
  ZEVENBERGEN : Bool
  OPTIONS : String
  EXTRA : String
  OUTPUT : RPath
  deriving Repr

/-- Parameter dictionary the script passes to `saga:rastercalculator`
(source lines 116-128). -/
structure RasterCalcParams where
  GRIDS : RPath
  XGRIDS : String
  FORMULA : String
  RESAMPLING : Nat
  USE_NODATA : Bool
  TYPE : Nat
  RESULT : RPath
  deriving Repr

/-- Parameter dictionary the script passes to `gdal:polygonize`
(source lines 143-149). -/
structure PolygonizeParams where
  INPUT : RPath
  BAND : Nat
  FIELD : String
  EIGHT_CONNECTEDNESS : Bool
  EXTRA : String
  OUTPUT : RPath
  deriving Repr

/-- The `parameters` dictionary of the algorithm: the declared inputs of
`slopealg` (decorator lines 8-29). -/
structure Parameters where
  INPUT : List RPath
  MOSAICKED : RPath
  RESAMPLED : RPath
  SLOPE : RPath
  CLASSEDSLOPE : RPath
  VECTORSLOPE : RPath
  ORIGINALGRAIN : ℚ
  DESIREDGRAIN : ℚ
  deriving Repr

/-- The execution environment: the five external operations reachable
through `processing.run`, and the cancellation flag as observed at the
script's five `feedback.isCanceled()` polls (poll index 0..4 in program
order). -/
structure Env where
  runMosaic : MosaicParams → Except Err MosaicResult
  runResampling : ResamplingParams → Except Err ResamplingResult
  runSlope : SlopeParams → Except Err SlopeResult
  runRasterCalculator : RasterCalcParams → Except Err RasterCalcResult
  runPolygonize : PolygonizeParams → Except Err PolygonizeResult
  isCanceled : Nat → Bool

/-- Arguments of the `saga:mosaicrasterlayers` call, source lines 41-52. -/
def mosaicParams (p : Parameters) : MosaicParams :=
  { GRIDS := p.INPUT
    NAME := "Mosaic"
    TYPE := 7
    RESAMPLING := 1
    OVERLAP := 4
    BLEND_DIST := 8
    MATCH := 0
    TARGET_USER_EXTENT := none
    TARGET_USER_SIZE := p.ORIGINALGRAIN
    TARGET_USER_FITS := 1
    TARGET_OUT_GRID := p.MOSAICKED }

/-- Arguments of the `saga:resampling` call, source lines 66-75; `src` is
`mosaicked_result['TARGET_OUT_GRID']`. -/
def resamplingParams (p : Parameters) (src : RPath) : ResamplingParams :=
  { INPUT := src
    KEEP_TYPE := true
    SCALE_UP := 3
    SCALE_DOWN := 3
    TARGET_USER_EXTENT := none
    TARGET_USER_SIZE := p.DESIREDGRAIN
    TARGET_USER_FITS := 1
    TARGET_TEMPLATE := none
    OUTPUT := p.RESAMPLED }

/-- Arguments of the `gdal:slope` call, source lines 93-102; `src` is
`resampled_output`. -/
def slopeParams (p : Parameters) (src : RPath) : SlopeParams :=
  { INPUT := src
    BAND := 1
    SCALE := 1
    AS_PERCENT := true
    COMPUTE_EDGES := false
    ZEVENBERGEN := false
    OPTIONS := ""
    EXTRA := ""
    OUTPUT := p.SLOPE }

/-- The classification formula string of source lines 119-124.  In the
Python source it is a single string literal continued over six lines with
backslash-newline: the backslash joins the lines, so the twelve spaces of
indentation of each continuation line are part of the string. -/
def classifyFORMULA : String :=
  "(or(gt(a,0),eq(a,0)))+" ++
  "            (or(gt(a,5),eq(a,5)))+" ++
  "            (or(gt(a,10),eq(a,10)))+" ++
  "            (or(gt(a,15),eq(a,15)))+" ++
  "            (or(gt(a,20),eq(a,20)))+" ++
  "            (or(gt(a,30),eq(a,30)))"

/-- Arguments of the `saga:rastercalculator` call, source lines 116-128;
`src` is `slope_output`. -/
def rasterCalcParams (p : Parameters) (src : RPath) : RasterCalcParams :=
  { GRIDS := src
    XGRIDS := ""
    FORMULA := classifyFORMULA
    RESAMPLING := 3
    USE_NODATA := false
    TYPE := 7
    RESULT := p.CLASSEDSLOPE }

/-- Arguments of the `gdal:polygonize` call, source lines 143-149; `src` is
`classed_slope_output`. -/
def polygonizeParams (p : Parameters) (src : RPath) : PolygonizeParams :=
  { INPUT := src
    BAND := 1
    FIELD := "class"
    EIGHT_CONNECTEDNESS := false
    EXTRA := ""
    OUTPUT := p.VECTORSLOPE }

/-- The body of `slopealg` (source lines 31-166), translated statement by
statement.  Returns the event trace of the run together with the Python
function's outcome. -/
def slopealg (env : Env) (p : Parameters) : List Event × Outcome :=
  -- mosaic DEMs (lines 41-55)
  let ev1 := [Event.invoke Stage.mosaic p.INPUT p.MOSAICKED]
  match env.runMosaic (mosaicParams p) with
  | Except.error e => (ev1, Outcome.error e)
  | Except.ok mosaicked_result =>
    let ev2 := ev1 ++ [Event.write Stage.mosaic p.MOSAICKED]
    -- lines 57-58
    if env.isCanceled 0 then (ev2, Outcome.ok []) else
    -- line 60
    let ev3 := ev2 ++ [Event.progress "Mosaicking finished"]
    -- resample mosaicked DEM, if necessary (lines 65-83)
    let step2 : List Event × Except Err RPath :=
      if p.ORIGINALGRAIN ≠ p.DESIREDGRAIN then
        let rEv := [Event.invoke Stage.resample [mosaicked_result.TARGET_OUT_GRID] p.RESAMPLED]
        match env.runResampling (resamplingParams p mosaicked_result.TARGET_OUT_GRID) with
        | Except.error e => (rEv, Except.error e)
        | Except.ok resampled_result =>
          (rEv ++ [Event.write Stage.resample p.RESAMPLED], Except.ok resampled_result.OUTPUT)
      else
        ([], Except.ok mosaicked_result.TARGET_OUT_GRID)
    match step2 with
    | (rEvs, Except.error e) => (ev3 ++ rEvs, Outcome.error e)
    | (rEvs, Except.ok resampled_output) =>
      let ev4 := ev3 ++ rEvs
      -- lines 85-86
      if env.isCanceled 1 then (ev4, Outcome.ok []) else
      -- line 88
      let ev5 := ev4 ++ [Event.progress "Resampling finished"]
      -- compute slope (lines 93-107)
      let ev6 := ev5 ++ [Event.invoke Stage.slope [resampled_output] p.SLOPE]
      match env.runSlope (slopeParams p resampled_output) with
      | Except.error e => (ev6, Outcome.error e)
      | Except.ok slope_result =>
        let slope_output := slope_result.OUTPUT
        let ev7 := ev6 ++ [Event.write Stage.slope p.SLOPE]
        -- lines 109-110
        if env.isCanceled 2 then (ev7, Outcome.ok []) else
        -- line 112
        let ev8 := ev7 ++ [Event.progress "Slope calculated"]
        -- classify slope (lines 116-133)
        let ev9 := ev8 ++ [Event.invoke Stage.classify [slope_output] p.CLASSEDSLOPE]
        match env.runRasterCalculator (rasterCalcParams p slope_output) with
        | Except.error e => (ev9, Outcome.error e)
        | Except.ok classed_slope_result =>
          let classed_slope_output := classed_slope_result.RESULT
          let ev10 := ev9 ++ [Event.write Stage.classify p.CLASSEDSLOPE]
          -- lines 135-136
          if env.isCanceled 3 then (ev10, Outcome.ok []) else
          -- line 138
          let ev11 := ev10 ++ [Event.progress "Slope classified"]
          -- vectorize classed slope (lines 143-152)
          let ev12 := ev11 ++ [Event.invoke Stage.vectorize [classed_slope_output] p.VECTORSLOPE]
          match env.runPolygonize (polygonizeParams p classed_slope_output) with
          | Except.error e => (ev12, Outcome.error e)
          | Except.ok vector_slope_result =>
            let ev13 := ev12 ++ [Event.write Stage.vectorize p.VECTORSLOPE]
            -- lines 154-155
            if env.isCanceled 4 then (ev13, Outcome.ok []) else
            -- line 157
            let ev14 := ev13 ++ [Event.progress "Slope vectorized"]
            -- return results (lines 162-166)
            (ev14, Outcome.ok
              [("MOSAICKED", mosaicked_result.TARGET_OUT_GRID),
               ("RESAMPLED", resampled_output),
               ("SLOPE", slope_output),
               ("CLASSEDSLOPE", classed_slope_output),
               ("VECTORSLOPE", vector_slope_result.OUTPUT)])

/-- Stages invoked during a run, in order. -/
def invokedStages : List Event → List Stage
  | [] => []
  | Event.invoke s _ _ :: es => s :: invokedStages es
  | _ :: es => invokedStages es

/-- Invoked stages paired with the input artifact list each received. -/
def stageInputs : List Event → List (Stage × List RPath)
  | [] => []
  | Event.invoke s inp _ :: es => (s, inp) :: stageInputs es
  | _ :: es => stageInputs es

/-- Artifacts written during a run: (writing stage, destination path). -/
def artifactWrites : List Event → List (Stage × RPath)
  | [] => []
  | Event.write s pa :: es => (s, pa) :: artifactWrites es
  | _ :: es => artifactWrites es

/-- Progress messages emitted during a run, in order. -/
def messages : List Event → List String
  | [] => []
  | Event.progress m :: es => m :: messages es
  | _ :: es => messages es

/-- The value the script binds to `resampled_output` when both branches are
considered: the resampling result when the grains differ, the mosaic output
otherwise. -/
def resampledOut (p : Parameters) (mOut rOut : RPath) : RPath :=
  if p.ORIGINALGRAIN ≠ p.DESIREDGRAIN then rOut else mOut

/-- The events contributed by the conditional resampling stage when it
succeeds: an invocation and a write when the grains differ, nothing when the
stage is skipped. -/
def resampleEvents (p : Parameters) (mOut : RPath) : List Event :=
  if p.ORIGINALGRAIN ≠ p.DESIREDGRAIN then
    [Event.invoke Stage.resample [mOut] p.RESAMPLED, Event.write Stage.resample p.RESAMPLED]
  else []

/-- Expressions of the SAGA grid-calculator language, restricted to the
constructs appearing in `classifyFORMULA`: the cell variable `a`, natural
number literals, `gt`, `eq`, `or`, `+`, and parenthesised sub-expressions. -/
inductive SagaExpr where
  | var
  | const (n : Nat)
  | gtE (x y : SagaExpr)
  | eqE (x y : SagaExpr)
  | orE (x y : SagaExpr)
  | add (x y : SagaExpr)
  | paren (x : SagaExpr)
  deriving DecidableEq, Repr

/-- Value of a SAGA grid-calculator expression at cell value `a`.
Modelled from the spec: the calculator itself is an external operation
(`saga:rastercalculator`); per the spec's contract the comparison functions
`gt` and `eq` yield the boolean values 1/0 and `or` is disjunction of
nonzero-ness, and these booleans are summed as numbers. -/
def SagaExpr.eval (a : ℚ) : SagaExpr → ℚ
  | SagaExpr.var => a
  | SagaExpr.const n => (n : ℚ)
  | SagaExpr.gtE x y => if SagaExpr.eval a y < SagaExpr.eval a x then 1 else 0
  | SagaExpr.eqE x y => if SagaExpr.eval a x = SagaExpr.eval a y then 1 else 0
  | SagaExpr.orE x y => if SagaExpr.eval a x ≠ 0 ∨ SagaExpr.eval a y ≠ 0 then 1 else 0
  | SagaExpr.add x y => SagaExpr.eval a x + SagaExpr.eval a y
  | SagaExpr.paren x => SagaExpr.eval a x

/-- Concrete syntax of a SAGA grid-calculator expression. -/
def SagaExpr.print : SagaExpr → String
  | SagaExpr.var => "a"
  | SagaExpr.const n => toString n
  | SagaExpr.gtE x y => "gt(" ++ SagaExpr.print x ++ "," ++ SagaExpr.print y ++ ")"
  | SagaExpr.eqE x y => "eq(" ++ SagaExpr.print x ++ "," ++ SagaExpr.print y ++ ")"
  | SagaExpr.orE x y => "or(" ++ SagaExpr.print x ++ "," ++ SagaExpr.print y ++ ")"
  | SagaExpr.add x y => SagaExpr.print x ++ "+" ++ SagaExpr.print y
  | SagaExpr.paren x => "(" ++ SagaExpr.print x ++ ")"

/-- One threshold test of the classification formula:
`(or(gt(a,t),eq(a,t)))`. -/
def geThreshold (t : Nat) : SagaExpr :=
  SagaExpr.paren (SagaExpr.orE
    (SagaExpr.gtE SagaExpr.var (SagaExpr.const t))
    (SagaExpr.eqE SagaExpr.var (SagaExpr.const t)))

/-- Abstract syntax of `classifyFORMULA`: the sum (left-associated, as `+`
parses in the calculator) of the six threshold tests. -/
def classifyExpr : SagaExpr :=
  SagaExpr.add (SagaExpr.add (SagaExpr.add (SagaExpr.add (SagaExpr.add
    (geThreshold 0) (geThreshold 5)) (geThreshold 10)) (geThreshold 15))
    (geThreshold 20)) (geThreshold 30)

/-- The six classification thresholds. -/
def slopeThresholds : List ℚ := [0, 5, 10, 15, 20, 30]

/-- The class code the spec ascribes to a slope cell value `v`: the number of
thresholds `t` among 0, 5, 10, 15, 20, 30 with `t ≤ v`. -/
def slopeClassCode (v : ℚ) : Nat :=
  (slopeThresholds.filter fun t => t ≤ v).length

/-- Concrete parameter set with distinct paths and differing grains
(originalGrain 1, desiredGrain 2). -/
def wpNe : Parameters :=
  { INPUT := ["t1.sdat", "t2.sdat"]
    MOSAICKED := "mos.sdat"
    RESAMPLED := "res.sdat"
    SLOPE := "slp.tif"
    CLASSEDSLOPE := "cls.sdat"
    VECTORSLOPE := "vec.shp"
    ORIGINALGRAIN := 1
    DESIREDGRAIN := 2 }

/-- Concrete parameter set with distinct paths and equal grains. -/
def wpEq : Parameters :=
  { INPUT := ["t1.sdat", "t2.sdat"]
    MOSAICKED := "mos.sdat"
    RESAMPLED := "res.sdat"
    SLOPE := "slp.tif"
    CLASSEDSLOPE := "cls.sdat"
    VECTORSLOPE := "vec.shp"
    ORIGINALGRAIN := 2
    DESIREDGRAIN := 2 }

/-- External operations that always succeed, reporting fixed output paths
distinct from every path in `wpNe`/`wpEq`. -/
def okOps : Env :=
  { runMosaic := fun _ => Except.ok { TARGET_OUT_GRID := "out-mos.sdat" }
    runResampling := fun _ => Except.ok { OUTPUT := "out-res.sdat" }
    runSlope := fun _ => Except.ok { OUTPUT := "out-slp.tif" }
    runRasterCalculator := fun _ => Except.ok { RESULT := "out-cls.sdat" }
    runPolygonize := fun _ => Except.ok { OUTPUT := "out-vec.shp" }
    isCanceled := fun _ => false }

/-- Environment with no cancellation and all operations succeeding. -/
def wEnvRun : Env := okOps

/-- Environment whose cancellation flag is already set before the run
starts (true at every poll). -/
def wEnvPre : Env :=
  { okOps with isCanceled := fun _ => true }

/-- Environment whose cancellation flag becomes set at poll 1 (the check
between the resampling phase and the slope stage) and stays set. -/
def wEnvAt1 : Env :=
  { okOps with isCanceled := fun i => 1 ≤ i }

/-- Environment whose cancellation flag becomes set at poll 2 and stays
set. -/
def wEnvAt2 : Env :=
  { okOps with isCanceled := fun i => 2 ≤ i }

/-- Environment whose cancellation flag becomes set at poll 4 (the check
after the vectorize stage) and stays set. -/
def wEnvAt4 : Env :=
  { okOps with isCanceled := fun i => 4 ≤ i }

/-- Environment in which the slope operation fails and nothing is
canceled. -/
def wEnvSlopeErr : Env :=
  { okOps with runSlope := fun _ => Except.error "gdal slope failed" }

theorem slopealg_mosaicErr (env : Env) (p : Parameters) (e : Err)
    (hm : env.runMosaic (mosaicParams p) = Except.error e) :
    slopealg env p =
      ([Event.invoke Stage.mosaic p.INPUT p.MOSAICKED], Outcome.error e) := by
  simp only [slopealg, hm]

theorem slopealg_cancel0 (env : Env) (p : Parameters) (mr : MosaicResult)
    (hm : env.runMosaic (mosaicParams p) = Except.ok mr)
    (h0 : env.isCanceled 0 = true) :
    slopealg env p =
      ([Event.invoke Stage.mosaic p.INPUT p.MOSAICKED,
        Event.write Stage.mosaic p.MOSAICKED], Outcome.ok []) := by
  simp only [slopealg, hm, h0]
  simp

theorem slopealg_cancel1 (env : Env) (p : Parameters)
    (mr : MosaicResult) (rr : ResamplingResult)
    (hm : env.runMosaic (mosaicParams p) = Except.ok mr)
    (hr : p.ORIGINALGRAIN ≠ p.DESIREDGRAIN →
      env.runResampling (resamplingParams p mr.TARGET_OUT_GRID) = Except.ok rr)
    (h0 : env.isCanceled 0 = false)
    (h1 : env.isCanceled 1 = true) :
    slopealg env p =
      ([Event.invoke Stage.mosaic p.INPUT p.MOSAICKED,
        Event.write Stage.mosaic p.MOSAICKED,
        Event.progress "Mosaicking finished"] ++
       resampleEvents p mr.TARGET_OUT_GRID, Outcome.ok []) := by
  by_cases hgr : p.ORIGINALGRAIN = p.DESIREDGRAIN
  · simp only [slopealg, resampleEvents, hm, h0, h1, hgr]
    simp
  · have hr' := hr hgr
    simp only [slopealg, resampleEvents, hm, hr', h0, h1, hgr]
    simp [hgr]

theorem slopealg_complete (env : Env) (p : Parameters)
    (mr : MosaicResult) (rr : ResamplingResult) (sr : SlopeResult)
    (cr : RasterCalcResult) (vr : PolygonizeResult)
    (hm : env.runMosaic (mosaicParams p) = Except.ok mr)
    (hr : p.ORIGINALGRAIN ≠ p.DESIREDGRAIN →
      env.runResampling (resamplingParams p mr.TARGET_OUT_GRID) = Except.ok rr)
    (hs : env.runSlope (slopeParams p (resampledOut p mr.TARGET_OUT_GRID rr.OUTPUT)) = Except.ok sr)
    (hcc : env.runRasterCalculator (rasterCalcParams p sr.OUTPUT) = Except.ok cr)
    (hv : env.runPolygonize (polygonizeParams p cr.RESULT) = Except.ok vr)
    (h0 : env.isCanceled 0 = false) (h1 : env.isCanceled 1 = false)
    (h2 : env.isCanceled 2 = false) (h3 : env.isCanceled 3 = false)
    (h4 : env.isCanceled 4 = false) :
    slopealg env p =
      ([Event.invoke Stage.mosaic p.INPUT p.MOSAICKED,
        Event.write Stage.mosaic p.MOSAICKED,
        Event.progress "Mosaicking finished"] ++
       resampleEvents p mr.TARGET_OUT_GRID ++
       [Event.progress "Resampling finished",
        Event.invoke Stage.slope [resampledOut p mr.TARGET_OUT_GRID rr.OUTPUT] p.SLOPE,
        Event.write Stage.slope p.SLOPE,
        Event.progress "Slope calculated",
        Event.invoke Stage.classify [sr.OUTPUT] p.CLASSEDSLOPE,
        Event.write Stage.classify p.CLASSEDSLOPE,
        Event.progress "Slope classified",
        Event.invoke Stage.vectorize [cr.RESULT] p.VECTORSLOPE,
        Event.write Stage.vectorize p.VECTORSLOPE,
        Event.progress "Slope vectorized"],
       Outcome.ok
         [("MOSAICKED", mr.TARGET_OUT_GRID),
          ("RESAMPLED", resampledOut p mr.TARGET_OUT_GRID rr.OUTPUT),
          ("SLOPE", sr.OUTPUT),
          ("CLASSEDSLOPE", cr.RESULT),
          ("VECTORSLOPE", vr.OUTPUT)]) := by
  by_cases hgr : p.ORIGINALGRAIN = p.DESIREDGRAIN
  · simp [resampledOut, hgr] at hs
    simp [slopealg, hm, hs, hcc, hv, hgr, h0, h1, h2, h3, h4, resampleEvents, resampledOut]
  · have hr2 := hr hgr
    simp [resampledOut, hgr] at hs
    simp [slopealg, hm, hr2, hs, hcc, hv, hgr, h0, h1, h2, h3, h4, resampleEvents, resampledOut]

theorem slopealg_resampleErr (env : Env) (p : Parameters)
    (mr : MosaicResult) (e : Err)
    (hm : env.runMosaic (mosaicParams p) = Except.ok mr)
    (h0 : env.isCanceled 0 = false)
    (hgr : p.ORIGINALGRAIN ≠ p.DESIREDGRAIN)
    (hre : env.runResampling (resamplingParams p mr.TARGET_OUT_GRID) = Except.error e) :
    slopealg env p =
      ([Event.invoke Stage.mosaic p.INPUT p.MOSAICKED,
        Event.write Stage.mosaic p.MOSAICKED,
        Event.progress "Mosaicking finished",
        Event.invoke Stage.resample [mr.TARGET_OUT_GRID] p.RESAMPLED],
       Outcome.error e) := by
  simp [slopealg, hm, h0, hgr, hre]

theorem slopealg_slopeErr (env : Env) (p : Parameters)
    (mr : MosaicResult) (rr : ResamplingResult) (e : Err)
    (hm : env.runMosaic (mosaicParams p) = Except.ok mr)
    (hr : p.ORIGINALGRAIN ≠ p.DESIREDGRAIN →
      env.runResampling (resamplingParams p mr.TARGET_OUT_GRID) = Except.ok rr)
    (h0 : env.isCanceled 0 = false) (h1 : env.isCanceled 1 = false)
    (hs : env.runSlope (slopeParams p (resampledOut p mr.TARGET_OUT_GRID rr.OUTPUT)) = Except.error e) :
    slopealg env p =
      ([Event.invoke Stage.mosaic p.INPUT p.MOSAICKED,
        Event.write Stage.mosaic p.MOSAICKED,
        Event.progress "Mosaicking finished"] ++
       resampleEvents p mr.TARGET_OUT_GRID ++
       [Event.progress "Resampling finished",
        Event.invoke Stage.slope [resampledOut p mr.TARGET_OUT_GRID rr.OUTPUT] p.SLOPE],
       Outcome.error e) := by
  by_cases hgr : p.ORIGINALGRAIN = p.DESIREDGRAIN
  · simp [resampledOut, hgr] at hs
    simp [slopealg, hm, hs, hgr, h0, h1, resampleEvents, resampledOut]
  · have hr2 := hr hgr
    simp [resampledOut, hgr] at hs
    simp [slopealg, hm, hr2, hs, hgr, h0, h1, resampleEvents, resampledOut]

theorem slopealg_calcErr (env : Env) (p : Parameters)
    (mr : MosaicResult) (rr : ResamplingResult) (sr : SlopeResult) (e : Err)
    (hm : env.runMosaic (mosaicParams p) = Except.ok mr)
    (hr : p.ORIGINALGRAIN ≠ p.DESIREDGRAIN →
      env.runResampling (resamplingParams p mr.TARGET_OUT_GRID) = Except.ok rr)
    (h0 : env.isCanceled 0 = false) (h1 : env.isCanceled 1 = false)
    (hs : env.runSlope (slopeParams p (resampledOut p mr.TARGET_OUT_GRID rr.OUTPUT)) = Except.ok sr)
    (h2 : env.isCanceled 2 = false)
    (hcc : env.runRasterCalculator (rasterCalcParams p sr.OUTPUT) = Except.error e) :
    slopealg env p =
      ([Event.invoke Stage.mosaic p.INPUT p.MOSAICKED,
        Event.write Stage.mosaic p.MOSAICKED,
        Event.progress "Mosaicking finished"] ++
       resampleEvents p mr.TARGET_OUT_GRID ++
       [Event.progress "Resampling finished",
        Event.invoke Stage.slope [resampledOut p mr.TARGET_OUT_GRID rr.OUTPUT] p.SLOPE,
        Event.write Stage.slope p.SLOPE,
        Event.progress "Slope calculated",
        Event.invoke Stage.classify [sr.OUTPUT] p.CLASSEDSLOPE],
       Outcome.error e) := by
  by_cases hgr : p.ORIGINALGRAIN = p.DESIREDGRAIN
  · simp [resampledOut, hgr] at hs
    simp [slopealg, hm, hs, hcc, hgr, h0, h1, h2, resampleEvents, resampledOut]
  · have hr2 := hr hgr
    simp [resampledOut, hgr] at hs
    simp [slopealg, hm, hr2, hs, hcc, hgr, h0, h1, h2, resampleEvents, resampledOut]

theorem slopealg_polyErr (env : Env) (p : Parameters)
    (mr : MosaicResult) (rr : ResamplingResult) (sr : SlopeResult)
    (cr : RasterCalcResult) (e : Err)
    (hm : env.runMosaic (mosaicParams p) = Except.ok mr)
    (hr : p.ORIGINALGRAIN ≠ p.DESIREDGRAIN →
      env.runResampling (resamplingParams p mr.TARGET_OUT_GRID) = Except.ok rr)
    (h0 : env.isCanceled 0 = false) (h1 : env.isCanceled 1 = false)
    (hs : env.runSlope (slopeParams p (resampledOut p mr.TARGET_OUT_GRID rr.OUTPUT)) = Except.ok sr)
    (h2 : env.isCanceled 2 = false)
    (hcc : env.runRasterCalculator (rasterCalcParams p sr.OUTPUT) = Except.ok cr)
    (h3 : env.isCanceled 3 = false)
    (hv : env.runPolygonize (polygonizeParams p cr.RESULT) = Except.error e) :
    slopealg env p =
      ([Event.invoke Stage.mosaic p.INPUT p.MOSAICKED,
        Event.write Stage.mosaic p.MOSAICKED,
        Event.progress "Mosaicking finished"] ++
       resampleEvents p mr.TARGET_OUT_GRID ++
       [Event.progress "Resampling finished",
        Event.invoke Stage.slope [resampledOut p mr.TARGET_OUT_GRID rr.OUTPUT] p.SLOPE,
        Event.write Stage.slope p.SLOPE,
        Event.progress "Slope calculated",
        Event.invoke Stage.classify [sr.OUTPUT] p.CLASSEDSLOPE,
        Event.write Stage.classify p.CLASSEDSLOPE,
        Event.progress "Slope classified",
        Event.invoke Stage.vectorize [cr.RESULT] p.VECTORSLOPE],
       Outcome.error e) := by
  by_cases hgr : p.ORIGINALGRAIN = p.DESIREDGRAIN
  · simp [resampledOut, hgr] at hs
    simp [slopealg, hm, hs, hcc, hv, hgr, h0, h1, h2, h3, resampleEvents, resampledOut]
  · have hr2 := hr hgr
    simp [resampledOut, hgr] at hs
    simp [slopealg, hm, hr2, hs, hcc, hv, hgr, h0, h1, h2, h3, resampleEvents, resampledOut]

theorem slopealg_cancel2 (env : Env) (p : Parameters)
    (mr : MosaicResult) (rr : ResamplingResult) (sr : SlopeResult)
    (hm : env.runMosaic (mosaicParams p) = Except.ok mr)
    (hr : p.ORIGINALGRAIN ≠ p.DESIREDGRAIN →
      env.runResampling (resamplingParams p mr.TARGET_OUT_GRID) = Except.ok rr)
    (h0 : env.isCanceled 0 = false) (h1 : env.isCanceled 1 = false)
    (hs : env.runSlope (slopeParams p (resampledOut p mr.TARGET_OUT_GRID rr.OUTPUT)) = Except.ok sr)
    (h2 : env.isCanceled 2 = true) :
    slopealg env p =
      ([Event.invoke Stage.mosaic p.INPUT p.MOSAICKED,
        Event.write Stage.mosaic p.MOSAICKED,
        Event.progress "Mosaicking finished"] ++
       resampleEvents p mr.TARGET_OUT_GRID ++
       [Event.progress "Resampling finished",
        Event.invoke Stage.slope [resampledOut p mr.TARGET_OUT_GRID rr.OUTPUT] p.SLOPE,
        Event.write Stage.slope p.SLOPE],
       Outcome.ok []) := by
  by_cases hgr : p.ORIGINALGRAIN = p.DESIREDGRAIN
  · simp [resampledOut, hgr] at hs
    simp [slopealg, hm, hs, hgr, h0, h1, h2, resampleEvents, resampledOut]
  · have hr2 := hr hgr
    simp [resampledOut, hgr] at hs
    simp [slopealg, hm, hr2, hs, hgr, h0, h1, h2, resampleEvents, resampledOut]

theorem slopealg_cancel3 (env : Env) (p : Parameters)
    (mr : MosaicResult) (rr : ResamplingResult) (sr : SlopeResult)
    (cr : RasterCalcResult)
    (hm : env.runMosaic (mosaicParams p) = Except.ok mr)
    (hr : p.ORIGINALGRAIN ≠ p.DESIREDGRAIN →
      env.runResampling (resamplingParams p mr.TARGET_OUT_GRID) = Except.ok rr)
    (h0 : env.isCanceled 0 = false) (h1 : env.isCanceled 1 = false)
    (hs : env.runSlope (slopeParams p (resampledOut p mr.TARGET_OUT_GRID rr.OUTPUT)) = Except.ok sr)
    (h2 : env.isCanceled 2 = false)
    (hcc : env.runRasterCalculator (rasterCalcParams p sr.OUTPUT) = Except.ok cr)
    (h3 : env.isCanceled 3 = true) :
    slopealg env p =
      ([Event.invoke Stage.mosaic p.INPUT p.MOSAICKED,
        Event.write Stage.mosaic p.MOSAICKED,
        Event.progress "Mosaicking finished"] ++
       resampleEvents p mr.TARGET_OUT_GRID ++
       [Event.progress "Resampling finished",
        Event.invoke Stage.slope [resampledOut p mr.TARGET_OUT_GRID rr.OUTPUT] p.SLOPE,
        Event.write Stage.slope p.SLOPE,
        Event.progress "Slope calculated",
        Event.invoke Stage.classify [sr.OUTPUT] p.CLASSEDSLOPE,
        Event.write Stage.classify p.CLASSEDSLOPE],
       Outcome.ok []) := by
  by_cases hgr : p.ORIGINALGRAIN = p.DESIREDGRAIN
  · simp [resampledOut, hgr] at hs
    simp [slopealg, hm, hs, hcc, hgr, h0, h1, h2, h3, resampleEvents, resampledOut]
  · have hr2 := hr hgr
    simp [resampledOut, hgr] at hs
    simp [slopealg, hm, hr2, hs, hcc, hgr, h0, h1, h2, h3, resampleEvents, resampledOut]

theorem slopealg_cancel4 (env : Env) (p : Parameters)
    (mr : MosaicResult) (rr : ResamplingResult) (sr : SlopeResult)
    (cr : RasterCalcResult) (vr : PolygonizeResult)
    (hm : env.runMosaic (mosaicParams p) = Except.ok mr)
    (hr : p.ORIGINALGRAIN ≠ p.DESIREDGRAIN →
      env.runResampling (resamplingParams p mr.TARGET_OUT_GRID) = Except.ok rr)
    (h0 : env.isCanceled 0 = false) (h1 : env.isCanceled 1 = false)
    (hs : env.runSlope (slopeParams p (resampledOut p mr.TARGET_OUT_GRID rr.OUTPUT)) = Except.ok sr)
    (h2 : env.isCanceled 2 = false)
    (hcc : env.runRasterCalculator (rasterCalcParams p sr.OUTPUT) = Except.ok cr)
    (h3 : env.isCanceled 3 = false)
    (hv : env.runPolygonize (polygonizeParams p cr.RESULT) = Except.ok vr)
    (h4 : env.isCanceled 4 = true) :
    slopealg env p =
      ([Event.invoke Stage.mosaic p.INPUT p.MOSAICKED,
        Event.write Stage.mosaic p.MOSAICKED,
        Event.progress "Mosaicking finished"] ++
       resampleEvents p mr.TARGET_OUT_GRID ++
       [Event.progress "Resampling finished",
        Event.invoke Stage.slope [resampledOut p mr.TARGET_OUT_GRID rr.OUTPUT] p.SLOPE,
        Event.write Stage.slope p.SLOPE,
        Event.progress "Slope calculated",
        Event.invoke Stage.classify [sr.OUTPUT] p.CLASSEDSLOPE,
        Event.write Stage.classify p.CLASSEDSLOPE,
        Event.progress "Slope classified",
        Event.invoke Stage.vectorize [cr.RESULT] p.VECTORSLOPE,
        Event.write Stage.vectorize p.VECTORSLOPE],
       Outcome.ok []) := by
  by_cases hgr : p.ORIGINALGRAIN = p.DESIREDGRAIN
  · simp [resampledOut, hgr] at hs
    simp [slopealg, hm, hs, hcc, hv, hgr, h0, h1, h2, h3, h4, resampleEvents, resampledOut]
  · have hr2 := hr hgr
    simp [resampledOut, hgr] at hs
    simp [slopealg, hm, hr2, hs, hcc, hv, hgr, h0, h1, h2, h3, h4, resampleEvents, resampledOut]

theorem invokedStages_append (a b : List Event) :
    invokedStages (a ++ b) = invokedStages a ++ invokedStages b := by
  induction a with
  | nil => rfl
  | cons e es ih => cases e <;> simp [invokedStages, ih]

theorem stageInputs_append (a b : List Event) :
    stageInputs (a ++ b) = stageInputs a ++ stageInputs b := by
  induction a with
  | nil => rfl
  | cons e es ih => cases e <;> simp [stageInputs, ih]

theorem artifactWrites_append (a b : List Event) :
    artifactWrites (a ++ b) = artifactWrites a ++ artifactWrites b := by
  induction a with
  | nil => rfl
  | cons e es ih => cases e <;> simp [artifactWrites, ih]

theorem messages_append (a b : List Event) :
    messages (a ++ b) = messages a ++ messages b := by
  induction a with
  | nil => rfl
  | cons e es ih => cases e <;> simp [messages, ih]

theorem gtOrEq_iff_le (t a : ℚ) : t < a ∨ a = t ↔ t ≤ a := by
  constructor
  · rintro (h | h)
    · exact h.le
    · exact h.symm.le
  · intro h
    rcases h.lt_or_eq with h2 | h2
    · exact Or.inl h2
    · exact Or.inr h2.symm

theorem geThreshold_eval (v : ℚ) (t : Nat) :
    SagaExpr.eval v (geThreshold t) = if (t : ℚ) ≤ v then 1 else 0 := by
  simp only [geThreshold, SagaExpr.eval]
  rcases lt_trichotomy ((t : ℚ)) v with h | h | h
  · simp [h, h.ne', le_of_lt h]
  · simp [h]
  · simp [h.not_lt, h.ne, not_le.mpr h]

/-- C2: the classification formula handed to the `saga:rastercalculator`
stage is `classifyFORMULA`; up to the whitespace coming from the Python
line continuations it is the concrete syntax of `classifyExpr`; its value
at any slope cell value `v : ℚ` is the number of thresholds among
0, 5, 10, 15, 20, 30 that `v` meets (so always an integer in 0..6), and at
`v = 12` it is 3. -/
theorem C2_classification_formula :
    (∀ (p : Parameters) (src : RPath), (rasterCalcParams p src).FORMULA = classifyFORMULA) ∧
    classifyFORMULA.toList.filter (fun c => c ≠ ' ') = (SagaExpr.print classifyExpr).toList ∧
    (∀ v : ℚ, SagaExpr.eval v classifyExpr = (slopeClassCode v : ℚ) ∧ slopeClassCode v ≤ 6) ∧
    slopeClassCode 12 = 3 ∧ SagaExpr.eval 12 classifyExpr = 3 := by
  have hEval : ∀ v : ℚ, SagaExpr.eval v classifyExpr = (slopeClassCode v : ℚ) := by
    intro v
    simp only [classifyExpr, SagaExpr.eval, geThreshold_eval, slopeClassCode, slopeThresholds]
    by_cases h0 : (0:ℚ) ≤ v <;> by_cases h5 : (5:ℚ) ≤ v <;> by_cases h10 : (10:ℚ) ≤ v <;>
      by_cases h15 : (15:ℚ) ≤ v <;> by_cases h20 : (20:ℚ) ≤ v <;> by_cases h30 : (30:ℚ) ≤ v <;>
      simp [h0, h5, h10, h15, h20, h30, List.filter, gtOrEq_iff_le] <;> norm_num
  have hCode : slopeClassCode 12 = 3 := by
    norm_num [slopeClassCode, slopeThresholds, List.filter]
  refine ⟨fun p src => rfl, by decide, fun v => ⟨hEval v, ?_⟩, hCode, ?_⟩
  · have h := List.length_filter_le (fun t => decide (t ≤ v)) slopeThresholds
    simpa [slopeClassCode, slopeThresholds] using h
  · rw [hEval 12, hCode]
    norm_num

/-- C5: on a run in which every stage succeeds and cancellation is never
observed at any of the five polls, `slopealg` returns a mapping with exactly
the five keys MOSAICKED, RESAMPLED, SLOPE, CLASSEDSLOPE and VECTORSLOPE,
each bound to the output its stage produced (for RESAMPLED: the resampling
output, or the forwarded mosaic output when the stage was skipped). -/
theorem C5_success_result_mapping (env : Env) (p : Parameters)
    (mr : MosaicResult) (rr : ResamplingResult) (sr : SlopeResult)
    (cr : RasterCalcResult) (vr : PolygonizeResult)
    (hm : env.runMosaic (mosaicParams p) = Except.ok mr)
    (hr : p.ORIGINALGRAIN ≠ p.DESIREDGRAIN →
      env.runResampling (resamplingParams p mr.TARGET_OUT_GRID) = Except.ok rr)
    (hs : env.runSlope (slopeParams p (resampledOut p mr.TARGET_OUT_GRID rr.OUTPUT)) = Except.ok sr)
    (hcc : env.runRasterCalculator (rasterCalcParams p sr.OUTPUT) = Except.ok cr)
    (hv : env.runPolygonize (polygonizeParams p cr.RESULT) = Except.ok vr)
    (h0 : env.isCanceled 0 = false) (h1 : env.isCanceled 1 = false)
    (h2 : env.isCanceled 2 = false) (h3 : env.isCanceled 3 = false)
    (h4 : env.isCanceled 4 = false) :
    (slopealg env p).2 = Outcome.ok
      [("MOSAICKED", mr.TARGET_OUT_GRID),
       ("RESAMPLED", resampledOut p mr.TARGET_OUT_GRID rr.OUTPUT),
       ("SLOPE", sr.OUTPUT),
       ("CLASSEDSLOPE", cr.RESULT),
       ("VECTORSLOPE", vr.OUTPUT)] := by
  rw [slopealg_complete env p mr rr sr cr vr hm hr hs hcc hv h0 h1 h2 h3 h4]

theorem C5_success_result_mapping_witness :
    (slopealg wEnvRun wpNe).2 = Outcome.ok
      [("MOSAICKED", "out-mos.sdat"), ("RESAMPLED", "out-res.sdat"),
       ("SLOPE", "out-slp.tif"), ("CLASSEDSLOPE", "out-cls.sdat"),
       ("VECTORSLOPE", "out-vec.shp")] := by
  have h := C5_success_result_mapping wEnvRun wpNe ⟨"out-mos.sdat"⟩ ⟨"out-res.sdat"⟩
    ⟨"out-slp.tif"⟩ ⟨"out-cls.sdat"⟩ ⟨"out-vec.shp"⟩ rfl (fun _ => rfl) rfl rfl rfl
    rfl rfl rfl rfl rfl
  exact h.trans (by decide)

/-- C10: when the cancellation flag is first observed set at the poll that
follows the vectorize stage (the grains differing, so that all five stages
are present), all five stages have been invoked and all five artifacts have
been written, yet `slopealg` returns the empty mapping, so the produced
artifact paths are never reported to the caller. -/
theorem C10_cancel_after_vectorize (env : Env) (p : Parameters)
    (mr : MosaicResult) (rr : ResamplingResult) (sr : SlopeResult)
    (cr : RasterCalcResult) (vr : PolygonizeResult)
    (hgr : p.ORIGINALGRAIN ≠ p.DESIREDGRAIN)
    (hm : env.runMosaic (mosaicParams p) = Except.ok mr)
    (hr : p.ORIGINALGRAIN ≠ p.DESIREDGRAIN →
      env.runResampling (resamplingParams p mr.TARGET_OUT_GRID) = Except.ok rr)
    (hs : env.runSlope (slopeParams p (resampledOut p mr.TARGET_OUT_GRID rr.OUTPUT)) = Except.ok sr)
    (hcc : env.runRasterCalculator (rasterCalcParams p sr.OUTPUT) = Except.ok cr)
    (hv : env.runPolygonize (polygonizeParams p cr.RESULT) = Except.ok vr)
    (h0 : env.isCanceled 0 = false) (h1 : env.isCanceled 1 = false)
    (h2 : env.isCanceled 2 = false) (h3 : env.isCanceled 3 = false)
    (h4 : env.isCanceled 4 = true) :
    (slopealg env p).2 = Outcome.ok [] ∧
    invokedStages (slopealg env p).1 =
      [Stage.mosaic, Stage.resample, Stage.slope, Stage.classify, Stage.vectorize] ∧
    artifactWrites (slopealg env p).1 =
      [(Stage.mosaic, p.MOSAICKED), (Stage.resample, p.RESAMPLED),
       (Stage.slope, p.SLOPE), (Stage.classify, p.CLASSEDSLOPE),
       (Stage.vectorize, p.VECTORSLOPE)] := by
  have h := slopealg_cancel4 env p mr rr sr cr vr hm hr h0 h1 hs h2 hcc h3 hv h4
  rw [h]
  refine ⟨rfl, ?_, ?_⟩ <;>
    simp [invokedStages, artifactWrites, invokedStages_append, artifactWrites_append,
      resampleEvents, hgr]

theorem C10_cancel_after_vectorize_witness :
    (slopealg wEnvAt4 wpNe).2 = Outcome.ok [] ∧
    invokedStages (slopealg wEnvAt4 wpNe).1 =
      [Stage.mosaic, Stage.resample, Stage.slope, Stage.classify, Stage.vectorize] ∧
    artifactWrites (slopealg wEnvAt4 wpNe).1 =
      [(Stage.mosaic, "mos.sdat"), (Stage.resample, "res.sdat"),
       (Stage.slope, "slp.tif"), (Stage.classify, "cls.sdat"),
       (Stage.vectorize, "vec.shp")] :=
  C10_cancel_after_vectorize wEnvAt4 wpNe ⟨"out-mos.sdat"⟩ ⟨"out-res.sdat"⟩
    ⟨"out-slp.tif"⟩ ⟨"out-cls.sdat"⟩ ⟨"out-vec.shp"⟩ (by decide) rfl (fun _ => rfl)
    rfl rfl rfl rfl rfl rfl rfl rfl

/-- C3 counterexample: in `wEnvPre` the cancellation flag is true at every
poll — in particular it is already set before the pipeline starts — and
every external operation succeeds.  The run still invokes the mosaic stage
and writes the mosaicked artifact before returning the empty result: the
script's first cancellation check only comes after the mosaic call, so the
claim that no stage is invoked and no artifact written is false. -/
theorem C3_pre_canceled_counterexample :
    (slopealg wEnvPre wpNe).2 = Outcome.ok [] ∧
    invokedStages (slopealg wEnvPre wpNe).1 = [Stage.mosaic] ∧
    artifactWrites (slopealg wEnvPre wpNe).1 = [(Stage.mosaic, "mos.sdat")] := by
  decide

/-- C3 amended: if the cancellation flag is already set at the first poll
and the mosaic operation succeeds, `slopealg` returns the empty result
having invoked exactly one stage (mosaicking) and written exactly one
artifact (the mosaic, to `outputPaths.mosaicked`); no later stage is ever
invoked and nothing is written to the other four output paths. -/
theorem C3_pre_canceled_amended (env : Env) (p : Parameters) (mr : MosaicResult)
    (hm : env.runMosaic (mosaicParams p) = Except.ok mr)
    (h0 : env.isCanceled 0 = true) :
    slopealg env p =
      ([Event.invoke Stage.mosaic p.INPUT p.MOSAICKED,
        Event.write Stage.mosaic p.MOSAICKED], Outcome.ok []) :=
  slopealg_cancel0 env p mr hm h0

theorem C3_pre_canceled_amended_witness :
    slopealg wEnvPre wpNe =
      ([Event.invoke Stage.mosaic ["t1.sdat", "t2.sdat"] "mos.sdat",
        Event.write Stage.mosaic "mos.sdat"], Outcome.ok []) := by
  have h := C3_pre_canceled_amended wEnvPre wpNe ⟨"out-mos.sdat"⟩ rfl rfl
  exact h.trans (by decide)

/-- C4 counterexample: with equal grains (`wpEq`) and the cancellation flag
first set at poll 1 — the check between the resampling phase and the slope
stage, i.e. "between stage 2 and stage 3", and not set at the earlier
boundary — the claim's consequent for k = 2 fails: the resample stage never
ran and produced no artifact; only the mosaic stage was invoked. -/
theorem C4_cancel_between_counterexample :
    wEnvAt1.isCanceled 0 = false ∧ wEnvAt1.isCanceled 1 = true ∧
    (slopealg wEnvAt1 wpEq).2 = Outcome.ok [] ∧
    invokedStages (slopealg wEnvAt1 wpEq).1 = [Stage.mosaic] ∧
    artifactWrites (slopealg wEnvAt1 wpEq).1 = [(Stage.mosaic, "mos.sdat")] := by
  decide

/-- C4 amended: for every k in 1..4, if the cancellation flag is first
observed set at the k-th poll (the boundary after stage k's phase), then
the stages up to and including stage k have run and written their
artifacts — except that the resample stage is skipped entirely (not
invoked, no artifact) when `originalGrain = desiredGrain` — stage k+1 and
all later stages are never invoked, and `slopealg` returns the empty
mapping.  The four conjuncts are the cases k = 1, 2, 3, 4. -/
theorem C4_cancel_between_stages_amended (env : Env) (p : Parameters) :
    (∀ mr : MosaicResult,
      env.runMosaic (mosaicParams p) = Except.ok mr →
      env.isCanceled 0 = true →
      slopealg env p =
        ([Event.invoke Stage.mosaic p.INPUT p.MOSAICKED,
          Event.write Stage.mosaic p.MOSAICKED], Outcome.ok [])) ∧
    (∀ (mr : MosaicResult) (rr : ResamplingResult),
      env.runMosaic (mosaicParams p) = Except.ok mr →
      (p.ORIGINALGRAIN ≠ p.DESIREDGRAIN →
        env.runResampling (resamplingParams p mr.TARGET_OUT_GRID) = Except.ok rr) →
      env.isCanceled 0 = false → env.isCanceled 1 = true →
      slopealg env p =
        ([Event.invoke Stage.mosaic p.INPUT p.MOSAICKED,
          Event.write Stage.mosaic p.MOSAICKED,
          Event.progress "Mosaicking finished"] ++
         resampleEvents p mr.TARGET_OUT_GRID, Outcome.ok [])) ∧
    (∀ (mr : MosaicResult) (rr : ResamplingResult) (sr : SlopeResult),
      env.runMosaic (mosaicParams p) = Except.ok mr →
      (p.ORIGINALGRAIN ≠ p.DESIREDGRAIN →
        env.runResampling (resamplingParams p mr.TARGET_OUT_GRID) = Except.ok rr) →
      env.isCanceled 0 = false → env.isCanceled 1 = false →
      env.runSlope (slopeParams p (resampledOut p mr.TARGET_OUT_GRID rr.OUTPUT)) = Except.ok sr →
      env.isCanceled 2 = true →
      slopealg env p =
        ([Event.invoke Stage.mosaic p.INPUT p.MOSAICKED,
          Event.write Stage.mosaic p.MOSAICKED,
          Event.progress "Mosaicking finished"] ++
         resampleEvents p mr.TARGET_OUT_GRID ++
         [Event.progress "Resampling finished",
          Event.invoke Stage.slope [resampledOut p mr.TARGET_OUT_GRID rr.OUTPUT] p.SLOPE,
          Event.write Stage.slope p.SLOPE], Outcome.ok [])) ∧
    (∀ (mr : MosaicResult) (rr : ResamplingResult) (sr : SlopeResult)
        (cr : RasterCalcResult),
      env.runMosaic (mosaicParams p) = Except.ok mr →
      (p.ORIGINALGRAIN ≠ p.DESIREDGRAIN →
        env.runResampling (resamplingParams p mr.TARGET_OUT_GRID) = Except.ok rr) →
      env.isCanceled 0 = false → env.isCanceled 1 = false →
      env.runSlope (slopeParams p (resampledOut p mr.TARGET_OUT_GRID rr.OUTPUT)) = Except.ok sr →
      env.isCanceled 2 = false →
      env.runRasterCalculator (rasterCalcParams p sr.OUTPUT) = Except.ok cr →
      env.isCanceled 3 = true →
      slopealg env p =
        ([Event.invoke Stage.mosaic p.INPUT p.MOSAICKED,
          Event.write Stage.mosaic p.MOSAICKED,
          Event.progress "Mosaicking finished"] ++
         resampleEvents p mr.TARGET_OUT_GRID ++
         [Event.progress "Resampling finished",
          Event.invoke Stage.slope [resampledOut p mr.TARGET_OUT_GRID rr.OUTPUT] p.SLOPE,
          Event.write Stage.slope p.SLOPE,
          Event.progress "Slope calculated",
          Event.invoke Stage.classify [sr.OUTPUT] p.CLASSEDSLOPE,
          Event.write Stage.classify p.CLASSEDSLOPE], Outcome.ok [])) := by
  refine ⟨?_, ?_, ?_, ?_⟩
  · intro mr hm h0
    exact slopealg_cancel0 env p mr hm h0
  · intro mr rr hm hr h0 h1
    exact slopealg_cancel1 env p mr rr hm hr h0 h1
  · intro mr rr sr hm hr h0 h1 hs h2
    exact slopealg_cancel2 env p mr rr sr hm hr h0 h1 hs h2
  · intro mr rr sr cr hm hr h0 h1 hs h2 hcc h3
    exact slopealg_cancel3 env p mr rr sr cr hm hr h0 h1 hs h2 hcc h3

theorem C4_cancel_between_stages_amended_witness :
    slopealg wEnvAt1 wpNe =
      ([Event.invoke Stage.mosaic ["t1.sdat", "t2.sdat"] "mos.sdat",
        Event.write Stage.mosaic "mos.sdat",
        Event.progress "Mosaicking finished",
        Event.invoke Stage.resample ["out-mos.sdat"] "res.sdat",
        Event.write Stage.resample "res.sdat"], Outcome.ok []) := by
  have h := (C4_cancel_between_stages_amended wEnvAt1 wpNe).2.1 ⟨"out-mos.sdat"⟩
    ⟨"out-res.sdat"⟩ rfl (fun _ => rfl) rfl rfl
  exact h.trans (by decide)

theorem messages_resampleEvents (p : Parameters) (m : RPath) :
    messages (resampleEvents p m) = [] := by
  unfold resampleEvents
  split <;> rfl

theorem invokedStages_resampleEvents (p : Parameters) (m : RPath) :
    invokedStages (resampleEvents p m) =
      if p.ORIGINALGRAIN ≠ p.DESIREDGRAIN then [Stage.resample] else [] := by
  unfold resampleEvents
  split <;> rfl

theorem stageInputs_resampleEvents (p : Parameters) (m : RPath) :
    stageInputs (resampleEvents p m) =
      if p.ORIGINALGRAIN ≠ p.DESIREDGRAIN then [(Stage.resample, [m])] else [] := by
  unfold resampleEvents
  split <;> rfl

theorem artifactWrites_resampleEvents (p : Parameters) (m : RPath) :
    artifactWrites (resampleEvents p m) =
      if p.ORIGINALGRAIN ≠ p.DESIREDGRAIN then [(Stage.resample, p.RESAMPLED)] else [] := by
  unfold resampleEvents
  split <;> rfl

/-- C7: after each stage whose following poll finds the flag unset the
script emits exactly one progress message, and the messages of a full run
are, in order, "Mosaicking finished", "Resampling finished",
"Slope calculated", "Slope classified", "Slope vectorized"; at a boundary
where cancellation is observed no message is emitted, so a run first
canceled at poll k emits exactly the first k messages.  The six conjuncts
are: the full run, then first cancellation at polls 0, 1, 2, 3, 4. -/
theorem C7_progress_messages (env : Env) (p : Parameters) :
    (∀ (mr : MosaicResult) (rr : ResamplingResult) (sr : SlopeResult)
        (cr : RasterCalcResult) (vr : PolygonizeResult),
      env.runMosaic (mosaicParams p) = Except.ok mr →
      (p.ORIGINALGRAIN ≠ p.DESIREDGRAIN →
        env.runResampling (resamplingParams p mr.TARGET_OUT_GRID) = Except.ok rr) →
      env.runSlope (slopeParams p (resampledOut p mr.TARGET_OUT_GRID rr.OUTPUT)) = Except.ok sr →
      env.runRasterCalculator (rasterCalcParams p sr.OUTPUT) = Except.ok cr →
      env.runPolygonize (polygonizeParams p cr.RESULT) = Except.ok vr →
      env.isCanceled 0 = false → env.isCanceled 1 = false →
      env.isCanceled 2 = false → env.isCanceled 3 = false →
      env.isCanceled 4 = false →
      messages (slopealg env p).1 =
        ["Mosaicking finished", "Resampling finished", "Slope calculated",
         "Slope classified", "Slope vectorized"]) ∧
    (∀ mr : MosaicResult,
      env.runMosaic (mosaicParams p) = Except.ok mr →
      env.isCanceled 0 = true →
      messages (slopealg env p).1 = []) ∧
    (∀ (mr : MosaicResult) (rr : ResamplingResult),
      env.runMosaic (mosaicParams p) = Except.ok mr →
      (p.ORIGINALGRAIN ≠ p.DESIREDGRAIN →
        env.runResampling (resamplingParams p mr.TARGET_OUT_GRID) = Except.ok rr) →
      env.isCanceled 0 = false → env.isCanceled 1 = true →
      messages (slopealg env p).1 = ["Mosaicking finished"]) ∧
    (∀ (mr : MosaicResult) (rr : ResamplingResult) (sr : SlopeResult),
      env.runMosaic (mosaicParams p) = Except.ok mr →
      (p.ORIGINALGRAIN ≠ p.DESIREDGRAIN →
        env.runResampling (resamplingParams p mr.TARGET_OUT_GRID) = Except.ok rr) →
      env.isCanceled 0 = false → env.isCanceled 1 = false →
      env.runSlope (slopeParams p (resampledOut p mr.TARGET_OUT_GRID rr.OUTPUT)) = Except.ok sr →
      env.isCanceled 2 = true →
      messages (slopealg env p).1 = ["Mosaicking finished", "Resampling finished"]) ∧
    (∀ (mr : MosaicResult) (rr : ResamplingResult) (sr : SlopeResult)
        (cr : RasterCalcResult),
      env.runMosaic (mosaicParams p) = Except.ok mr →
      (p.ORIGINALGRAIN ≠ p.DESIREDGRAIN →
        env.runResampling (resamplingParams p mr.TARGET_OUT_GRID) = Except.ok rr) →
      env.isCanceled 0 = false → env.isCanceled 1 = false →
      env.runSlope (slopeParams p (resampledOut p mr.TARGET_OUT_GRID rr.OUTPUT)) = Except.ok sr →
      env.isCanceled 2 = false →
      env.runRasterCalculator (rasterCalcParams p sr.OUTPUT) = Except.ok cr →
      env.isCanceled 3 = true →
      messages (slopealg env p).1 =
        ["Mosaicking finished", "Resampling finished", "Slope calculated"]) ∧
    (∀ (mr : MosaicResult) (rr : ResamplingResult) (sr : SlopeResult)
        (cr : RasterCalcResult) (vr : PolygonizeResult),
      env.runMosaic (mosaicParams p) = Except.ok mr →
      (p.ORIGINALGRAIN ≠ p.DESIREDGRAIN →
        env.runResampling (resamplingParams p mr.TARGET_OUT_GRID) = Except.ok rr) →
      env.isCanceled 0 = false → env.isCanceled 1 = false →
      env.runSlope (slopeParams p (resampledOut p mr.TARGET_OUT_GRID rr.OUTPUT)) = Except.ok sr →
      env.isCanceled 2 = false →
      env.runRasterCalculator (rasterCalcParams p sr.OUTPUT) = Except.ok cr →
      env.isCanceled 3 = false →
      env.runPolygonize (polygonizeParams p cr.RESULT) = Except.ok vr →
      env.isCanceled 4 = true →
      messages (slopealg env p).1 =
        ["Mosaicking finished", "Resampling finished", "Slope calculated",
         "Slope classified"]) := by
  refine ⟨?_, ?_, ?_, ?_, ?_, ?_⟩
  · intro mr rr sr cr vr hm hr hs hcc hv h0 h1 h2 h3 h4
    rw [slopealg_complete env p mr rr sr cr vr hm hr hs hcc hv h0 h1 h2 h3 h4]
    simp [messages, messages_append, messages_resampleEvents]
  · intro mr hm h0
    rw [slopealg_cancel0 env p mr hm h0]
    simp [messages]
  · intro mr rr hm hr h0 h1
    rw [slopealg_cancel1 env p mr rr hm hr h0 h1]
    simp [messages, messages_append, messages_resampleEvents]
  · intro mr rr sr hm hr h0 h1 hs h2
    rw [slopealg_cancel2 env p mr rr sr hm hr h0 h1 hs h2]
    simp [messages, messages_append, messages_resampleEvents]
  · intro mr rr sr cr hm hr h0 h1 hs h2 hcc h3
    rw [slopealg_cancel3 env p mr rr sr cr hm hr h0 h1 hs h2 hcc h3]
    simp [messages, messages_append, messages_resampleEvents]
  · intro mr rr sr cr vr hm hr h0 h1 hs h2 hcc h3 hv h4
    rw [slopealg_cancel4 env p mr rr sr cr vr hm hr h0 h1 hs h2 hcc h3 hv h4]
    simp [messages, messages_append, messages_resampleEvents]

theorem C7_progress_messages_witness :
    messages (slopealg wEnvRun wpNe).1 =
      ["Mosaicking finished", "Resampling finished", "Slope calculated",
       "Slope classified", "Slope vectorized"] :=
  (C7_progress_messages wEnvRun wpNe).1 ⟨"out-mos.sdat"⟩ ⟨"out-res.sdat"⟩
    ⟨"out-slp.tif"⟩ ⟨"out-cls.sdat"⟩ ⟨"out-vec.shp"⟩ rfl (fun _ => rfl) rfl rfl rfl
    rfl rfl rfl rfl rfl

/-- C8: if a stage's external operation fails, `slopealg` ends immediately
with that failure as its outcome, unchanged: the trace stops at the failing
invocation, so no later stage is invoked, no message is emitted for the
failed stage, and no result mapping is returned.  The five conjuncts cover
a failure in each of the five stages, giving the complete trace of each
run. -/
theorem C8_failure_propagation (env : Env) (p : Parameters) :
    (∀ e : Err, env.runMosaic (mosaicParams p) = Except.error e →
      slopealg env p =
        ([Event.invoke Stage.mosaic p.INPUT p.MOSAICKED], Outcome.error e)) ∧
    (∀ (mr : MosaicResult) (e : Err),
      env.runMosaic (mosaicParams p) = Except.ok mr →
      env.isCanceled 0 = false →
      p.ORIGINALGRAIN ≠ p.DESIREDGRAIN →
      env.runResampling (resamplingParams p mr.TARGET_OUT_GRID) = Except.error e →
      slopealg env p =
        ([Event.invoke Stage.mosaic p.INPUT p.MOSAICKED,
          Event.write Stage.mosaic p.MOSAICKED,
          Event.progress "Mosaicking finished",
          Event.invoke Stage.resample [mr.TARGET_OUT_GRID] p.RESAMPLED],
         Outcome.error e)) ∧
    (∀ (mr : MosaicResult) (rr : ResamplingResult) (e : Err),
      env.runMosaic (mosaicParams p) = Except.ok mr →
      (p.ORIGINALGRAIN ≠ p.DESIREDGRAIN →
        env.runResampling (resamplingParams p mr.TARGET_OUT_GRID) = Except.ok rr) →
      env.isCanceled 0 = false → env.isCanceled 1 = false →
      env.runSlope (slopeParams p (resampledOut p mr.TARGET_OUT_GRID rr.OUTPUT)) = Except.error e →
      slopealg env p =
        ([Event.invoke Stage.mosaic p.INPUT p.MOSAICKED,
          Event.write Stage.mosaic p.MOSAICKED,
          Event.progress "Mosaicking finished"] ++
         resampleEvents p mr.TARGET_OUT_GRID ++
         [Event.progress "Resampling finished",
          Event.invoke Stage.slope [resampledOut p mr.TARGET_OUT_GRID rr.OUTPUT] p.SLOPE],
         Outcome.error e)) ∧
    (∀ (mr : MosaicResult) (rr : ResamplingResult) (sr : SlopeResult) (e : Err),
      env.runMosaic (mosaicParams p) = Except.ok mr →
      (p.ORIGINALGRAIN ≠ p.DESIREDGRAIN →
        env.runResampling (resamplingParams p mr.TARGET_OUT_GRID) = Except.ok rr) →
      env.isCanceled 0 = false → env.isCanceled 1 = false →
      env.runSlope (slopeParams p (resampledOut p mr.TARGET_OUT_GRID rr.OUTPUT)) = Except.ok sr →
      env.isCanceled 2 = false →
      env.runRasterCalculator (rasterCalcParams p sr.OUTPUT) = Except.error e →
      slopealg env p =
        ([Event.invoke Stage.mosaic p.INPUT p.MOSAICKED,
          Event.write Stage.mosaic p.MOSAICKED,
          Event.progress "Mosaicking finished"] ++
         resampleEvents p mr.TARGET_OUT_GRID ++
         [Event.progress "Resampling finished",
          Event.invoke Stage.slope [resampledOut p mr.TARGET_OUT_GRID rr.OUTPUT] p.SLOPE,
          Event.write Stage.slope p.SLOPE,
          Event.progress "Slope calculated",
          Event.invoke Stage.classify [sr.OUTPUT] p.CLASSEDSLOPE],
         Outcome.error e)) ∧
    (∀ (mr : MosaicResult) (rr : ResamplingResult) (sr : SlopeResult)
        (cr : RasterCalcResult) (e : Err),
      env.runMosaic (mosaicParams p) = Except.ok mr →
      (p.ORIGINALGRAIN ≠ p.DESIREDGRAIN →
        env.runResampling (resamplingParams p mr.TARGET_OUT_GRID) = Except.ok rr) →
      env.isCanceled 0 = false → env.isCanceled 1 = false →
      env.runSlope (slopeParams p (resampledOut p mr.TARGET_OUT_GRID rr.OUTPUT)) = Except.ok sr →
      env.isCanceled 2 = false →
      env.runRasterCalculator (rasterCalcParams p sr.OUTPUT) = Except.ok cr →
      env.isCanceled 3 = false →
      env.runPolygonize (polygonizeParams p cr.RESULT) = Except.error e →
      slopealg env p =
        ([Event.invoke Stage.mosaic p.INPUT p.MOSAICKED,
          Event.write Stage.mosaic p.MOSAICKED,
          Event.progress "Mosaicking finished"] ++
         resampleEvents p mr.TARGET_OUT_GRID ++
         [Event.progress "Resampling finished",
          Event.invoke Stage.slope [resampledOut p mr.TARGET_OUT_GRID rr.OUTPUT] p.SLOPE,
          Event.write Stage.slope p.SLOPE,
          Event.progress "Slope calculated",
          Event.invoke Stage.classify [sr.OUTPUT] p.CLASSEDSLOPE,
          Event.write Stage.classify p.CLASSEDSLOPE,
          Event.progress "Slope classified",
          Event.invoke Stage.vectorize [cr.RESULT] p.VECTORSLOPE],
         Outcome.error e)) := by
  refine ⟨?_, ?_, ?_, ?_, ?_⟩
  · intro e hm
    exact slopealg_mosaicErr env p e hm
  · intro mr e hm h0 hgr hre
    exact slopealg_resampleErr env p mr e hm h0 hgr hre
  · intro mr rr e hm hr h0 h1 hs
    exact slopealg_slopeErr env p mr rr e hm hr h0 h1 hs
  · intro mr rr sr e hm hr h0 h1 hs h2 hcc
    exact slopealg_calcErr env p mr rr sr e hm hr h0 h1 hs h2 hcc
  · intro mr rr sr cr e hm hr h0 h1 hs h2 hcc h3 hv
    exact slopealg_polyErr env p mr rr sr cr e hm hr h0 h1 hs h2 hcc h3 hv

theorem C8_failure_propagation_witness :
    slopealg wEnvSlopeErr wpNe =
      ([Event.invoke Stage.mosaic ["t1.sdat", "t2.sdat"] "mos.sdat",
        Event.write Stage.mosaic "mos.sdat",
        Event.progress "Mosaicking finished",
        Event.invoke Stage.resample ["out-mos.sdat"] "res.sdat",
        Event.write Stage.resample "res.sdat",
        Event.progress "Resampling finished",
        Event.invoke Stage.slope ["out-res.sdat"] "slp.tif"],
       Outcome.error "gdal slope failed") := by
  have h := (C8_failure_propagation wEnvSlopeErr wpNe).2.2.1 ⟨"out-mos.sdat"⟩
    ⟨"out-res.sdat"⟩ "gdal slope failed" rfl (fun _ => rfl) rfl rfl rfl
  exact h.trans (by decide)

theorem lookup_RESAMPLED (a b c d e : RPath) :
    List.lookup "RESAMPLED"
      [("MOSAICKED", a), ("RESAMPLED", b), ("SLOPE", c),
       ("CLASSEDSLOPE", d), ("VECTORSLOPE", e)] = some b := rfl

theorem lookup_MOSAICKED (a b c d e : RPath) :
    List.lookup "MOSAICKED"
      [("MOSAICKED", a), ("RESAMPLED", b), ("SLOPE", c),
       ("CLASSEDSLOPE", d), ("VECTORSLOPE", e)] = some a := rfl

/-- C9: in every run with equal grains in which the mosaic stage succeeds
and cancellation is not observed at the first two polls, the progress
message "Resampling finished" is emitted even though the resampling
operation is never invoked (whatever happens in the later stages). -/
theorem C9_resampling_message_despite_skip (env : Env) (p : Parameters)
    (mr : MosaicResult)
    (hgr : p.ORIGINALGRAIN = p.DESIREDGRAIN)
    (hm : env.runMosaic (mosaicParams p) = Except.ok mr)
    (h0 : env.isCanceled 0 = false) (h1 : env.isCanceled 1 = false) :
    "Resampling finished" ∈ messages (slopealg env p).1 ∧
    ∀ inp d, Event.invoke Stage.resample inp d ∉ (slopealg env p).1 := by
  have hvac : p.ORIGINALGRAIN ≠ p.DESIREDGRAIN →
      env.runResampling (resamplingParams p mr.TARGET_OUT_GRID) =
        Except.ok (ResamplingResult.mk "") := fun h => absurd hgr h
  rcases hsl : env.runSlope (slopeParams p
      (resampledOut p mr.TARGET_OUT_GRID (ResamplingResult.mk "").OUTPUT)) with e | sr
  · rw [slopealg_slopeErr env p mr ⟨""⟩ e hm hvac h0 h1 hsl]
    refine ⟨by simp [messages, messages_append, messages_resampleEvents],
            fun inp d => by simp [resampleEvents, hgr]⟩
  · cases h2 : env.isCanceled 2 with
    | true =>
      rw [slopealg_cancel2 env p mr ⟨""⟩ sr hm hvac h0 h1 hsl h2]
      refine ⟨by simp [messages, messages_append, messages_resampleEvents],
              fun inp d => by simp [resampleEvents, hgr]⟩
    | false =>
      rcases hcalc : env.runRasterCalculator (rasterCalcParams p sr.OUTPUT) with e | cr
      · rw [slopealg_calcErr env p mr ⟨""⟩ sr e hm hvac h0 h1 hsl h2 hcalc]
        refine ⟨by simp [messages, messages_append, messages_resampleEvents],
                fun inp d => by simp [resampleEvents, hgr]⟩
      · cases h3 : env.isCanceled 3 with
        | true =>
          rw [slopealg_cancel3 env p mr ⟨""⟩ sr cr hm hvac h0 h1 hsl h2 hcalc h3]
          refine ⟨by simp [messages, messages_append, messages_resampleEvents],
                  fun inp d => by simp [resampleEvents, hgr]⟩
        | false =>
          rcases hpol : env.runPolygonize (polygonizeParams p cr.RESULT) with e | vr
          · rw [slopealg_polyErr env p mr ⟨""⟩ sr cr e hm hvac h0 h1 hsl h2 hcalc h3 hpol]
            refine ⟨by simp [messages, messages_append, messages_resampleEvents],
                    fun inp d => by simp [resampleEvents, hgr]⟩
          · cases h4 : env.isCanceled 4 with
            | true =>
              rw [slopealg_cancel4 env p mr ⟨""⟩ sr cr vr hm hvac h0 h1 hsl h2 hcalc h3 hpol h4]
              refine ⟨by simp [messages, messages_append, messages_resampleEvents],
                      fun inp d => by simp [resampleEvents, hgr]⟩
            | false =>
              rw [slopealg_complete env p mr ⟨""⟩ sr cr vr hm hvac hsl hcalc hpol h0 h1 h2 h3 h4]
              refine ⟨by simp [messages, messages_append, messages_resampleEvents],
                      fun inp d => by simp [resampleEvents, hgr]⟩

theorem C9_resampling_message_despite_skip_witness :
    "Resampling finished" ∈ messages (slopealg wEnvRun wpEq).1 ∧
    ∀ inp d, Event.invoke Stage.resample inp d ∉ (slopealg wEnvRun wpEq).1 :=
  C9_resampling_message_despite_skip wEnvRun wpEq ⟨"out-mos.sdat"⟩ rfl rfl rfl rfl

/-- C1: in every run with `originalGrain = desiredGrain` the resampling
operation is never invoked and the resample stage never writes (it is the
only stage whose destination is `outputPaths.resampled`, so no file is
written there); and whenever the run returns a result mapping, its
RESAMPLED entry equals its MOSAICKED entry — the mosaic stage's output
path (both are `none` for the empty mapping of a canceled run). -/
theorem C1_equal_grains_forwarding (env : Env) (p : Parameters)
    (hgr : p.ORIGINALGRAIN = p.DESIREDGRAIN) :
    (∀ inp d, Event.invoke Stage.resample inp d ∉ (slopealg env p).1) ∧
    (∀ pa, Event.write Stage.resample pa ∉ (slopealg env p).1) ∧
    (∀ res, (slopealg env p).2 = Outcome.ok res →
      res.lookup "RESAMPLED" = res.lookup "MOSAICKED") := by
  rcases hmr : env.runMosaic (mosaicParams p) with e | mr
  · rw [slopealg_mosaicErr env p e hmr]
    exact ⟨fun inp d => by simp, fun pa => by simp,
           fun res h => by simp at h⟩
  · have hvac : p.ORIGINALGRAIN ≠ p.DESIREDGRAIN →
        env.runResampling (resamplingParams p mr.TARGET_OUT_GRID) =
          Except.ok (ResamplingResult.mk "") := fun h => absurd hgr h
    cases h0 : env.isCanceled 0 with
    | true =>
      rw [slopealg_cancel0 env p mr hmr h0]
      exact ⟨fun inp d => by simp, fun pa => by simp,
             fun res h => by simp at h; subst h; rfl⟩
    | false =>
      cases h1 : env.isCanceled 1 with
      | true =>
        rw [slopealg_cancel1 env p mr ⟨""⟩ hmr hvac h0 h1]
        exact ⟨fun inp d => by simp [resampleEvents, hgr],
               fun pa => by simp [resampleEvents, hgr],
               fun res h => by simp at h; subst h; rfl⟩
      | false =>
        rcases hsl : env.runSlope (slopeParams p
            (resampledOut p mr.TARGET_OUT_GRID (ResamplingResult.mk "").OUTPUT)) with e | sr
        · rw [slopealg_slopeErr env p mr ⟨""⟩ e hmr hvac h0 h1 hsl]
          exact ⟨fun inp d => by simp [resampleEvents, hgr],
                 fun pa => by simp [resampleEvents, hgr],
                 fun res h => by simp at h⟩
        · cases h2 : env.isCanceled 2 with
          | true =>
            rw [slopealg_cancel2 env p mr ⟨""⟩ sr hmr hvac h0 h1 hsl h2]
            exact ⟨fun inp d => by simp [resampleEvents, hgr],
                   fun pa => by simp [resampleEvents, hgr],
                   fun res h => by simp at h; subst h; rfl⟩
          | false =>
            rcases hcalc : env.runRasterCalculator (rasterCalcParams p sr.OUTPUT) with e | cr
            · rw [slopealg_calcErr env p mr ⟨""⟩ sr e hmr hvac h0 h1 hsl h2 hcalc]
              exact ⟨fun inp d => by simp [resampleEvents, hgr],
                     fun pa => by simp [resampleEvents, hgr],
                     fun res h => by simp at h⟩
            · cases h3 : env.isCanceled 3 with
              | true =>
                rw [slopealg_cancel3 env p mr ⟨""⟩ sr cr hmr hvac h0 h1 hsl h2 hcalc h3]
                exact ⟨fun inp d => by simp [resampleEvents, hgr],
                       fun pa => by simp [resampleEvents, hgr],
                       fun res h => by simp at h; subst h; rfl⟩
              | false =>
                rcases hpol : env.runPolygonize (polygonizeParams p cr.RESULT) with e | vr
                · rw [slopealg_polyErr env p mr ⟨""⟩ sr cr e hmr hvac h0 h1 hsl h2 hcalc h3 hpol]
                  exact ⟨fun inp d => by simp [resampleEvents, hgr],
                         fun pa => by simp [resampleEvents, hgr],
                         fun res h => by simp at h⟩
                · cases h4 : env.isCanceled 4 with
                  | true =>
                    rw [slopealg_cancel4 env p mr ⟨""⟩ sr cr vr hmr hvac h0 h1 hsl h2 hcalc h3 hpol h4]
                    exact ⟨fun inp d => by simp [resampleEvents, hgr],
                           fun pa => by simp [resampleEvents, hgr],
                           fun res h => by simp at h; subst h; rfl⟩
                  | false =>
                    rw [slopealg_complete env p mr ⟨""⟩ sr cr vr hmr hvac hsl hcalc hpol h0 h1 h2 h3 h4]
                    refine ⟨fun inp d => by simp [resampleEvents, hgr],
                            fun pa => by simp [resampleEvents, hgr],
                            fun res h => ?_⟩
                    simp at h
                    subst h
                    simp [lookup_RESAMPLED, lookup_MOSAICKED, resampledOut, hgr]

theorem C1_equal_grains_forwarding_witness :
    ((∀ inp d, Event.invoke Stage.resample inp d ∉ (slopealg wEnvRun wpEq).1) ∧
     (∀ pa, Event.write Stage.resample pa ∉ (slopealg wEnvRun wpEq).1) ∧
     (∀ res, (slopealg wEnvRun wpEq).2 = Outcome.ok res →
       res.lookup "RESAMPLED" = res.lookup "MOSAICKED")) ∧
    (slopealg wEnvRun wpEq).2 = Outcome.ok
      [("MOSAICKED", "out-mos.sdat"), ("RESAMPLED", "out-mos.sdat"),
       ("SLOPE", "out-slp.tif"), ("CLASSEDSLOPE", "out-cls.sdat"),
       ("VECTORSLOPE", "out-vec.shp")] :=
  ⟨C1_equal_grains_forwarding wEnvRun wpEq rfl, by decide⟩

/-- C6: in every complete run the invoked stages, with their inputs, form
exactly the chain: mosaic consumes the original input set; resample (when
the grains differ) consumes the mosaic output; slope consumes the
resampled-or-forwarded output; classify consumes the slope output;
vectorize consumes the classified output.  Under the hypotheses that the
five stage outputs are pairwise distinct and that none of them occurs among
the input rasters (artifacts are identified by their paths), each stage
output is consumed by exactly one downstream stage (the resample output
only when that stage ran; the vectorize output by none), and an input
raster is consumed only by the mosaic stage. -/
theorem C6_dataflow_chain (env : Env) (p : Parameters)
    (mr : MosaicResult) (rr : ResamplingResult) (sr : SlopeResult)
    (cr : RasterCalcResult) (vr : PolygonizeResult)
    (hm : env.runMosaic (mosaicParams p) = Except.ok mr)
    (hr : p.ORIGINALGRAIN ≠ p.DESIREDGRAIN →
      env.runResampling (resamplingParams p mr.TARGET_OUT_GRID) = Except.ok rr)
    (hs : env.runSlope (slopeParams p (resampledOut p mr.TARGET_OUT_GRID rr.OUTPUT)) = Except.ok sr)
    (hcc : env.runRasterCalculator (rasterCalcParams p sr.OUTPUT) = Except.ok cr)
    (hv : env.runPolygonize (polygonizeParams p cr.RESULT) = Except.ok vr)
    (h0 : env.isCanceled 0 = false) (h1 : env.isCanceled 1 = false)
    (h2 : env.isCanceled 2 = false) (h3 : env.isCanceled 3 = false)
    (h4 : env.isCanceled 4 = false)
    (dm : mr.TARGET_OUT_GRID ∉ p.INPUT) (dr : rr.OUTPUT ∉ p.INPUT)
    (ds : sr.OUTPUT ∉ p.INPUT) (dc : cr.RESULT ∉ p.INPUT) (dv : vr.OUTPUT ∉ p.INPUT)
    (q1 : mr.TARGET_OUT_GRID ≠ rr.OUTPUT) (q2 : mr.TARGET_OUT_GRID ≠ sr.OUTPUT)
    (q3 : mr.TARGET_OUT_GRID ≠ cr.RESULT) (q4 : mr.TARGET_OUT_GRID ≠ vr.OUTPUT)
    (q5 : rr.OUTPUT ≠ sr.OUTPUT) (q6 : rr.OUTPUT ≠ cr.RESULT)
    (q7 : rr.OUTPUT ≠ vr.OUTPUT) (q8 : sr.OUTPUT ≠ cr.RESULT)
    (q9 : sr.OUTPUT ≠ vr.OUTPUT) (q10 : cr.RESULT ≠ vr.OUTPUT) :
    stageInputs (slopealg env p).1 =
      [(Stage.mosaic, p.INPUT)] ++
      (if p.ORIGINALGRAIN ≠ p.DESIREDGRAIN then
        [(Stage.resample, [mr.TARGET_OUT_GRID])] else []) ++
      [(Stage.slope, [resampledOut p mr.TARGET_OUT_GRID rr.OUTPUT]),
       (Stage.classify, [sr.OUTPUT]),
       (Stage.vectorize, [cr.RESULT])] ∧
    ((stageInputs (slopealg env p).1).filter
      (fun q => decide (mr.TARGET_OUT_GRID ∈ q.2))).length = 1 ∧
    (p.ORIGINALGRAIN ≠ p.DESIREDGRAIN →
      ((stageInputs (slopealg env p).1).filter
        (fun q => decide (rr.OUTPUT ∈ q.2))).length = 1) ∧
    ((stageInputs (slopealg env p).1).filter
      (fun q => decide (sr.OUTPUT ∈ q.2))).length = 1 ∧
    ((stageInputs (slopealg env p).1).filter
      (fun q => decide (cr.RESULT ∈ q.2))).length = 1 ∧
    ((stageInputs (slopealg env p).1).filter
      (fun q => decide (vr.OUTPUT ∈ q.2))).length = 0 ∧
    (∀ x ∈ p.INPUT,
      (stageInputs (slopealg env p).1).filter (fun q => decide (x ∈ q.2)) =
        [(Stage.mosaic, p.INPUT)]) := by
  have hsi : stageInputs (slopealg env p).1 =
      [(Stage.mosaic, p.INPUT)] ++
      (if p.ORIGINALGRAIN ≠ p.DESIREDGRAIN then
        [(Stage.resample, [mr.TARGET_OUT_GRID])] else []) ++
      [(Stage.slope, [resampledOut p mr.TARGET_OUT_GRID rr.OUTPUT]),
       (Stage.classify, [sr.OUTPUT]),
       (Stage.vectorize, [cr.RESULT])] := by
    rw [slopealg_complete env p mr rr sr cr vr hm hr hs hcc hv h0 h1 h2 h3 h4]
    simp [stageInputs, stageInputs_append, stageInputs_resampleEvents]
  refine ⟨hsi, ?_, ?_, ?_, ?_, ?_, ?_⟩
  · rw [hsi]
    by_cases hgr : p.ORIGINALGRAIN ≠ p.DESIREDGRAIN <;>
      simp [hgr, resampledOut, List.filter, dm, q1, q2, q3]
  · intro hgr
    rw [hsi]
    simp [hgr, resampledOut, List.filter, dr, Ne.symm q1, q5, q6]
  · rw [hsi]
    by_cases hgr : p.ORIGINALGRAIN ≠ p.DESIREDGRAIN <;>
      simp [hgr, resampledOut, List.filter, ds, Ne.symm q2, Ne.symm q5, q8, q9]
  · rw [hsi]
    by_cases hgr : p.ORIGINALGRAIN ≠ p.DESIREDGRAIN <;>
      simp [hgr, resampledOut, List.filter, dc, Ne.symm q3, Ne.symm q6, Ne.symm q8, q10]
  · rw [hsi]
    by_cases hgr : p.ORIGINALGRAIN ≠ p.DESIREDGRAIN <;>
      simp [hgr, resampledOut, List.filter, dv, Ne.symm q4, Ne.symm q7, Ne.symm q9, Ne.symm q10]
  · intro x hx
    rw [hsi]
    by_cases hgr : p.ORIGINALGRAIN ≠ p.DESIREDGRAIN <;>
      simp [hgr, resampledOut, List.filter, hx,
        ne_of_mem_of_not_mem hx dm, ne_of_mem_of_not_mem hx dr,
        ne_of_mem_of_not_mem hx ds, ne_of_mem_of_not_mem hx dc]

theorem C6_dataflow_chain_witness :
    stageInputs (slopealg wEnvRun wpNe).1 =
      [(Stage.mosaic, ["t1.sdat", "t2.sdat"]),
       (Stage.resample, ["out-mos.sdat"]),
       (Stage.slope, ["out-res.sdat"]),
       (Stage.classify, ["out-slp.tif"]),
       (Stage.vectorize, ["out-cls.sdat"])] := by
  have h := (C6_dataflow_chain wEnvRun wpNe ⟨"out-mos.sdat"⟩ ⟨"out-res.sdat"⟩
    ⟨"out-slp.tif"⟩ ⟨"out-cls.sdat"⟩ ⟨"out-vec.shp"⟩ rfl (fun _ => rfl) rfl rfl rfl
    rfl rfl rfl rfl rfl
    (by decide) (by decide) (by decide) (by decide) (by decide)
    (by decide) (by decide) (by decide) (by decide) (by decide)
    (by decide) (by decide) (by decide) (by decide) (by decide)).1
  exact h.trans (by decide)
